import Mathlib

/-!
Shallow embedding of two Airbyte utilities:
- `airbyte_cdk/sources/file_based/file_types/unstructured_parser.py`
  (document-to-Markdown parser: file-type detection, local/remote content
  extraction with retries, markdown rendering, config validation), and
- `base_images/build.py` (base-image build script: sanity-check aggregation
  and changelog regeneration).

External collaborators (the `unstructured` library detection functions and
MIME table, the HTTP client, UTF-8 decoding, the container client) are
modelled as explicit function parameters (oracles); the control flow of the
repository code itself is translated directly.
-/

namespace Airbyte

/-- Subset of the `unstructured` library FileType enumeration relevant here:
the four supported kinds, the unknown marker, and two representative
unsupported kinds. -/
inductive FileType where
  | UNK
  | MD
  | PDF
  | DOCX
  | PPTX
  | TXT
  | CSV
  deriving DecidableEq, Repr

/-- UnstructuredParser._supported_file_types: [FileType.MD, FileType.PDF, FileType.DOCX, FileType.PPTX]. -/
def supported_file_types : List FileType :=
  [FileType.MD, FileType.PDF, FileType.DOCX, FileType.PPTX]

/-- Membership test of an optional filetype in the supported list, as Python
evaluates `filetype not in self._supported_file_types()` (where a `None`
filetype is not a member). -/
def in_supported (ft : Option FileType) : Bool :=
  match ft with
  | some t => supported_file_types.contains t
  | none => false

/-- The guard `remote_file.mime_type and remote_file.mime_type in STR_TO_FILETYPE`:
a `None` or empty (falsy) mime hint fails the check, otherwise the static
table `STR_TO_FILETYPE` (an external dictionary, passed as `table`) is
consulted. -/
def mime_lookup (table : String → Option FileType) (mime : Option String) :
    Option FileType :=
  match mime with
  | none => none
  | some m => if m = "" then none else table m

/-- UnstructuredParser._get_filetype. The three detection strategies, in
order: the mime hint against the static table, filename-based detection
(`detect_filetype(filename=remote_file.uri)`, passed as `detect_by_name`),
then content-based detection (`detect_filetype(file=file)`, passed as the
already-evaluated `detect_by_content`). -/
def get_filetype (table : String → Option FileType)
    (detect_by_name : String → Option FileType)
    (detect_by_content : Option FileType)
    (mime : Option String) (uri : String) : Option FileType :=
  match mime_lookup table mime with
  | some ft => some ft
  | none =>
    match detect_by_name uri with
    | some ft => if ft = FileType.UNK then detect_by_content else some ft
    | none => detect_by_content

/-- Failure modes of a remote request, as `requests` raises them: an
exception carrying a response with a status code, or a connection-level
exception with no response. -/
inductive ReqError where
  | withStatus (code : Nat)
  | noResponse
  deriving DecidableEq, Repr

/-- Truthiness of a requests Response object: Response implements bool as
its ok flag, which is true exactly for a status code below 400. -/
def response_ok (code : Nat) : Bool :=
  decide (code < 400)

/-- user_error: `bool(e.response and 400 <= e.response.status_code < 500)`.
The `and` short-circuits on a falsy response: a missing response, and also
any response whose status is 400 or above (such a Response is itself
falsy), yield False; only a truthy response reaches the status-code range
check. -/
def user_error : ReqError → Bool
  | ReqError.withStatus code =>
    response_ok code && decide (400 ≤ code ∧ code < 500)
  | ReqError.noResponse => false

/-- Semantics of the `backoff.on_exception(..., max_tries, giveup)` decorator:
`attempts i` is the outcome of the i-th call of the wrapped function. With
fuel `tries`, the current attempt is made; on an error for which `giveup`
holds, or with no tries left, the error is raised; otherwise the next
attempt runs. (The exponential wait between attempts affects timing only,
not which attempt outcomes are observed.) -/
def backoff_retry {ε α : Type} (giveup : ε → Bool)
    (attempts : Nat → Except ε α) : Nat → Nat → Except ε α
  | i, 0 => attempts i
  | i, tries + 1 =>
    match attempts i with
    | Except.ok a => Except.ok a
    | Except.error e =>
      if giveup e then Except.error e
      else if tries = 0 then Except.error e
      else backoff_retry giveup attempts (i + 1) tries

/-- UnstructuredParser._read_file_remotely_with_retries: the remote read
(whose per-call outcomes are `attempts`) under
`backoff.on_exception(backoff.expo, RequestException, max_tries=5, giveup=user_error)`. -/
def read_file_remotely_with_retries
    (attempts : Nat → Except ReqError (Option String)) :
    Except ReqError (Option String) :=
  backoff_retry user_error attempts 0 5

/-- Error taxonomy of the parsing path: a RecordParseError naming the file,
a UnicodeDecodeError from decoding non-UTF-8 bytes, a request error from the
remote API, and the missing-local-library failure. -/
inductive ParseError where
  | recordParseError (filename : String)
  | decodeError
  | requestError (e : ReqError)
  | localLibUnavailable
  deriving DecidableEq, Repr

/-- optional_decode: a `bytes` value is decoded as UTF-8 (raising on invalid
bytes, modelled by the `decodeUtf8` oracle returning `none`), a `str` value
is returned unchanged. Bytes are modelled as `List Nat`. -/
def optional_decode (decodeUtf8 : List Nat → Option String) :
    Sum (List Nat) String → Except ParseError String
  | Sum.inr s => Except.ok s
  | Sum.inl bs =>
    match decodeUtf8 bs with
    | some s => Except.ok s
    | none => Except.error ParseError.decodeError

/-- UnstructuredParser._handle_unprocessable_file: with a truthy skip flag,
log a warning and return; otherwise raise RecordParseError for the file.
The returned list carries the emitted warning messages. -/
def handle_unprocessable_file (uri : String) (skip : Option Bool) :
    Except ParseError (List String) :=
  if skip.getD false then
    Except.ok [s!"File {uri} cannot be parsed. Skipping it."]
  else
    Except.error (ParseError.recordParseError uri)

/-- The two processing modes of UnstructuredFormat.processing. -/
inductive ProcessingMode where
  | localMode
  | apiMode
  deriving DecidableEq, Repr

/-- UnstructuredParser._read_file: dispatch on the detected filetype
(already computed, passed as `filetype`): Markdown is decoded as UTF-8 and
returned raw; unsupported kinds go through the unprocessable-file policy and
yield no content; otherwise the configured mode selects local or remote
extraction (whose outcomes are the `localResult` / `remoteResult` oracles).
Returns the emitted warning messages together with the optional markdown. -/
def read_file (filetype : Option FileType)
    (decodeUtf8 : List Nat → Option String) (contents : List Nat)
    (skip : Option Bool) (mode : ProcessingMode)
    (localResult remoteResult : Except ParseError (Option String))
    (uri : String) : Except ParseError (List String × Option String) :=
  if filetype = some FileType.MD then
    match optional_decode decodeUtf8 (Sum.inl contents) with
    | Except.ok s => Except.ok ([], some s)
    | Except.error e => Except.error e
  else if in_supported filetype = false then
    match handle_unprocessable_file uri skip with
    | Except.ok warns => Except.ok (warns, none)
    | Except.error e => Except.error e
  else
    match mode with
    | ProcessingMode.localMode =>
      localResult.map (fun r => ([], r))
    | ProcessingMode.apiMode =>
      remoteResult.map (fun r => ([], r))

/-- The record yielded per file: {content, document_key}. -/
structure Record where
  content : String
  document_key : String
  deriving DecidableEq, Repr

/-- UnstructuredParser.parse_records: run _read_file and yield one record
{content, document_key} when it produced markdown, none when it returned
None. Errors propagate. -/
def parse_records (filetype : Option FileType)
    (decodeUtf8 : List Nat → Option String) (contents : List Nat)
    (skip : Option Bool) (mode : ProcessingMode)
    (localResult remoteResult : Except ParseError (Option String))
    (uri : String) : Except ParseError (List String × List Record) :=
  match read_file filetype decodeUtf8 contents skip mode localResult
      remoteResult uri with
  | Except.error e => Except.error e
  | Except.ok (warns, none) => Except.ok (warns, [])
  | Except.ok (warns, some md) =>
    Except.ok (warns, [{ content := md, document_key := uri }])

/-- The processing configuration: LocalProcessingConfigModel, or
APIProcessingConfigModel with api_url, api_key and optional parameters. -/
inductive Processing where
  | localProcessing
  | apiProcessing (api_url : String) (api_key : String)
      (parameters : Option (List (String × String)))

/-- Constant CLOUD_DEPLOYMENT_MODE. -/
def CLOUD_DEPLOYMENT_MODE : String := "cloud"

/-- ASCII lowering of one character (A-Z mapped down by 32). -/
def ascii_lower (c : Char) : Char :=
  if 65 ≤ c.toNat ∧ c.toNat ≤ 90 then Char.ofNat (c.toNat + 32) else c

/-- Python str.casefold, on the ASCII configuration values used here:
character-wise lowering. -/
def py_casefold (s : String) : String :=
  String.mk (s.data.map ascii_lower)

/-- Python str.startswith: prefix test on the character sequences. -/
def str_startswith (s p : String) : Bool :=
  p.data.isPrefixOf s.data

/-- UnstructuredParser.check_config: local mode reports success; in api mode
under a cloud deployment an api_url without the https scheme fails with a
fixed message; otherwise a test extraction of the fixed Markdown payload is
attempted (`remoteCall` is the _read_file_remotely oracle, its `.error`
carrying the formatted traceback string) and any exception becomes a
`(false, message)` result. `deployment_mode` is the DEPLOYMENT_MODE
environment value (default empty). -/
def check_config (deployment_mode : String)
    (remoteCall : String → FileType → Except String (Option String))
    (proc : Processing) : Bool × Option String :=
  match proc with
  | Processing.localProcessing => (true, none)
  | Processing.apiProcessing api_url _ _ =>
    if py_casefold deployment_mode = CLOUD_DEPLOYMENT_MODE
        ∧ ¬ str_startswith api_url "https://" then
      (false, some "Base URL must start with https://")
    else
      match remoteCall "# Airbyte source connection test" FileType.MD with
      | Except.error msg => (false, some msg)
      | Except.ok _ => (true, none)

/-- A value of the form dictionary built by _params_to_dict: a scalar
string or a list of strings. -/
inductive ParamValue where
  | scalar (s : String)
  | listVal (l : List String)
  deriving DecidableEq, Repr

/-- Ordered-dictionary lookup (Python `key in result_dict` /
`result_dict[key]`). -/
def dict_get (d : List (String × ParamValue)) (k : String) :
    Option ParamValue :=
  match d with
  | [] => none
  | (k2, v) :: rest => if k2 = k then some v else dict_get rest k

/-- Ordered-dictionary assignment (`result_dict[key] = value`): an existing
key keeps its position, a new key is appended at the end. -/
def dict_set (d : List (String × ParamValue)) (k : String) (v : ParamValue) :
    List (String × ParamValue) :=
  match d with
  | [] => [(k, v)]
  | (k2, v2) :: rest =>
    if k2 = k then (k2, v) :: rest else (k2, v2) :: dict_set rest k v

/-- One iteration of the _params_to_dict loop body. -/
def params_step (acc : List (String × ParamValue)) (p : String × String) :
    List (String × ParamValue) :=
  match dict_get acc p.1 with
  | some (ParamValue.scalar s) => dict_set acc p.1 (ParamValue.listVal [s, p.2])
  | some (ParamValue.listVal l) =>
    dict_set acc p.1 (ParamValue.listVal (l ++ [p.2]))
  | none => dict_set acc p.1 (ParamValue.scalar p.2)

/-- UnstructuredParser._params_to_dict: fold the (name, value) pairs into an
ordered dictionary, coalescing repeated names into a list of values. -/
def params_to_dict (params : Option (List (String × String))) :
    List (String × ParamValue) :=
  match params with
  | none => []
  | some ps => ps.foldl params_step []

/-- JSON-like values making up an element dictionary, as returned by the
remote API or by `element.to_dict()`: strings, integers, null, and nested
dictionaries (booleans and floats are omitted; the fields the renderer
accesses never hold them). -/
inductive JVal where
  | str (s : String)
  | int (n : Int)
  | null
  | dict (entries : List (String × JVal))

/-- Lookup of a key in a dictionary entry list, first match. -/
def assoc_get (entries : List (String × JVal)) (k : String) : Option JVal :=
  match entries with
  | [] => none
  | (k2, v) :: rest => if k2 = k then some v else assoc_get rest k

/-- Path lookup in nested dictionaries, as `dpath.util.get` resolves a
path such as "metadata/category_depth"; `none` models the KeyError raised
when the path has no match. -/
def jget (el : JVal) : List String → Option JVal
  | [] => some el
  | k :: rest =>
    match el with
    | JVal.dict entries =>
      match assoc_get entries k with
      | some v => jget v rest
      | none => none
    | _ => none

/-- Errors the renderer can raise: a KeyError from a defaultless
`dpath.util.get`, or a TypeError from `"#" * depth` on a non-integer. -/
inductive PyErr where
  | keyError (path : List String)
  | typeError
  deriving DecidableEq, Repr

/-- `dpath.util.get` without default: raises KeyError when unmatched. -/
def jget_req (el : JVal) (path : List String) : Except PyErr JVal :=
  match jget el path with
  | some v => Except.ok v
  | none => Except.error (PyErr.keyError path)

/-- `dpath.util.get` with a default: returns the default when unmatched. -/
def jget_default (el : JVal) (path : List String) (default : JVal) : JVal :=
  (jget el path).getD default

/-- Python equality of a value against a string literal, as in
`dpath.util.get(el, "type") == "Title"`: true only for an equal string. -/
def is_str (v : JVal) (s : String) : Bool :=
  match v with
  | JVal.str t => t == s
  | _ => false

/-- Python truthiness of a value, as used by the `or 1` fallback. -/
def py_falsy : JVal → Bool
  | JVal.str s => s == ""
  | JVal.int n => n == 0
  | JVal.null => true
  | JVal.dict entries => entries.isEmpty

mutual

/-- Python repr of a value (up to string escaping), used by str() on
non-string values. -/
def py_repr : JVal → String
  | JVal.str s => "\x27" ++ s ++ "\x27"
  | JVal.int n => toString n
  | JVal.null => "None"
  | JVal.dict entries => "\x7b" ++ py_repr_entries entries ++ "\x7d"

/-- Comma-separated rendering of dictionary entries for `py_repr`. -/
def py_repr_entries : List (String × JVal) → String
  | [] => ""
  | [(k, v)] => "\x27" ++ k ++ "\x27: " ++ py_repr v
  | (k, v) :: rest =>
    "\x27" ++ k ++ "\x27: " ++ py_repr v ++ ", " ++ py_repr_entries rest

end

/-- Python str() of a value, as an f-string interpolates it. -/
def py_str : JVal → String
  | JVal.str s => s
  | v => py_repr v

/-- `"#" * depth`: repetition of the hash character for an integer depth
(a non-positive count yields the empty string); any other operand raises
TypeError. -/
def repeat_hash : JVal → Except PyErr String
  | JVal.int n => Except.ok (String.mk (List.replicate n.toNat (Char.ofNat 35)))
  | _ => Except.error PyErr.typeError

/-- UnstructuredParser._convert_to_markdown: per-element rendering. Title
renders as a heading whose level is the category_depth metadata (default 1,
and a falsy stored depth also falls back to 1); ListItem as a dashed line;
Formula as a fenced code block; anything else as its raw text (default
empty string). The `type` lookup and the `text` lookups of the three typed
branches carry no default; their exceptions propagate. -/
def convert_to_markdown (el : JVal) : Except PyErr String :=
  match jget_req el ["type"] with
  | Except.error e => Except.error e
  | Except.ok ty =>
    if is_str ty "Title" then
      let rawDepth := jget_default el ["metadata", "category_depth"] (JVal.int 1)
      let depth := if py_falsy rawDepth then JVal.int 1 else rawDepth
      match repeat_hash depth with
      | Except.error e => Except.error e
      | Except.ok heading =>
        match jget_req el ["text"] with
        | Except.error e => Except.error e
        | Except.ok text => Except.ok (heading ++ " " ++ py_str text)
    else if is_str ty "ListItem" then
      match jget_req el ["text"] with
      | Except.error e => Except.error e
      | Except.ok text => Except.ok ("- " ++ py_str text)
    else if is_str ty "Formula" then
      match jget_req el ["text"] with
      | Except.error e => Except.error e
      | Except.ok text => Except.ok ("```\n" ++ py_str text ++ "\n```")
    else
      Except.ok (py_str (jget_default el ["text"] (JVal.str "")))

/-- Python str.join: the empty string on an empty list, otherwise the head
followed by separator-prefixed copies of the remaining items. -/
def py_join (sep : String) : List String → String
  | [] => ""
  | a :: rest => rest.foldl (fun acc x => acc ++ sep ++ x) a

/-- Left-to-right evaluation of the rendering generator
`(self._convert_to_markdown(el) for el in elements)`: collect the
renderings in order, propagating the first exception. -/
def convert_all : List JVal → Except PyErr (List String)
  | [] => Except.ok []
  | el :: rest =>
    match convert_to_markdown el with
    | Except.error e => Except.error e
    | Except.ok s =>
      match convert_all rest with
      | Except.error e => Except.error e
      | Except.ok ss => Except.ok (s :: ss)

/-- UnstructuredParser._render_markdown:
`"\n\n".join(self._convert_to_markdown(el) for el in elements)`; an
exception from any element propagates. -/
def render_markdown (elements : List JVal) : Except PyErr String :=
  (convert_all elements).map (py_join "\n\n")

/-- itertools.product(xs, ys): pairs in order, the right factor varying
fastest. -/
def python_product {P I : Type} (xs : List P) (ys : List I) : List (P × I) :=
  xs.flatMap (fun x => ys.map (fun y => (x, y)))

/-- base_images/build.py a_build: for every (platform, base-image) pair in
`product(SUPPORTED_PLATFORMS, ALL_BASE_IMAGES)` run the sanity checks
(outcomes given by the `sanity` oracle), collect the per-pair results in
order, and return `all(sanity_check_successes)`. -/
def a_build {P I : Type} (platforms : List P) (images : List I)
    (sanity : P → I → Bool) : Bool :=
  (((python_product platforms images).map
    (fun pi => sanity pi.1 pi.2)).all id)

/-- Observable outcome of build.py main: whether the changelog file was
written, and the process exit status. -/
structure BuildOutcome where
  changelog_written : Bool
  exit_code : Nat
  deriving DecidableEq, Repr

/-- base_images/build.py main: run a_build; on failure log and
`sys.exit(1)` without writing the changelog, on success write the changelog
file and finish normally (exit status 0). -/
def build_main {P I : Type} (platforms : List P) (images : List I)
    (sanity : P → I → Bool) : BuildOutcome :=
  let success := a_build platforms images sanity
  if success then
    { changelog_written := true, exit_code := 0 }
  else
    { changelog_written := false, exit_code := 1 }

/-- C1: a mime hint that is a (nonempty) key of the static MIME-to-kind
table makes _get_filetype return the mapped kind whatever the filename and
content detectors would say; with the hint absent or unrecognized, filename
detection decides unless it yields None or Unknown, in which case the
content-detection result is returned. -/
theorem C1_mime_table_priority (table : String → Option FileType)
    (detect_by_name : String → Option FileType)
    (detect_by_content : Option FileType) (m uri : String) (k ft : FileType) :
    (m ≠ "" → table m = some k →
      get_filetype table detect_by_name detect_by_content (some m) uri = some k)
    ∧ (∀ mime, mime_lookup table mime = none →
        (detect_by_name uri = some ft → ft ≠ FileType.UNK →
          get_filetype table detect_by_name detect_by_content mime uri = some ft)
        ∧ ((detect_by_name uri = none ∨ detect_by_name uri = some FileType.UNK) →
          get_filetype table detect_by_name detect_by_content mime uri
            = detect_by_content)) := by
  constructor
  · intro hm ht
    simp [get_filetype, mime_lookup, hm, ht]
  · intro mime hmime
    constructor
    · intro hn hft
      simp [get_filetype, hmime, hn, hft]
    · rintro (hn | hn) <;> simp [get_filetype, hmime, hn]

/-- Witness for C1 at the markdown MIME type: the table entry wins although
filename detection would say PDF and content detection DOCX; and with no
hint the filename detector decides. -/
theorem C1_mime_table_priority_witness :
    get_filetype (fun m => if m = "text/markdown" then some FileType.MD else none)
      (fun _ => some FileType.PDF) (some FileType.DOCX)
      (some "text/markdown") "f.pdf" = some FileType.MD
    ∧ get_filetype (fun m => if m = "text/markdown" then some FileType.MD else none)
      (fun _ => some FileType.PDF) (some FileType.DOCX) none "f.pdf"
        = some FileType.PDF := by
  have h := C1_mime_table_priority
    (fun m => if m = "text/markdown" then some FileType.MD else none)
    (fun _ => some FileType.PDF) (some FileType.DOCX)
    "text/markdown" "f.pdf" FileType.MD FileType.PDF
  exact ⟨h.1 (by decide) (by simp), (h.2 none rfl).1 rfl (by decide)⟩

/-- C3: check_config is a total function into (Bool, Option String) pairs:
local mode answers (true, none) for every remote oracle; in api mode a
cloud deployment with a non-https api_url answers exactly
(false, "Base URL must start with https://") independently of the remote
extraction oracle; otherwise an exception of the test extraction of the
fixed Markdown payload is returned as (false, message) and a successful
test extraction answers (true, none). -/
theorem C3_check_config_total (dm url key msg : String)
    (ps : Option (List (String × String)))
    (rc rc2 : String → FileType → Except String (Option String)) :
    (check_config dm rc Processing.localProcessing = (true, none))
    ∧ (py_casefold dm = "cloud" → ¬ str_startswith url "https://" →
        check_config dm rc (Processing.apiProcessing url key ps)
          = (false, some "Base URL must start with https://")
        ∧ check_config dm rc (Processing.apiProcessing url key ps)
          = check_config dm rc2 (Processing.apiProcessing url key ps))
    ∧ (¬ (py_casefold dm = "cloud" ∧ ¬ str_startswith url "https://") →
        (rc "# Airbyte source connection test" FileType.MD = Except.error msg →
          check_config dm rc (Processing.apiProcessing url key ps)
            = (false, some msg))
        ∧ (∀ r, rc "# Airbyte source connection test" FileType.MD = Except.ok r →
          check_config dm rc (Processing.apiProcessing url key ps)
            = (true, none))) := by
  refine ⟨rfl, ?_, ?_⟩
  · intro h1 h2
    constructor <;>
      simp [check_config, CLOUD_DEPLOYMENT_MODE, h1, h2]
  · intro hcond
    constructor
    · intro herr
      simp only [check_config, CLOUD_DEPLOYMENT_MODE]
      rw [if_neg hcond, herr]
    · intro r hok
      simp only [check_config, CLOUD_DEPLOYMENT_MODE]
      rw [if_neg hcond, hok]

/-- Witness for C3: under DEPLOYMENT_MODE "CLOUD" an http api_url is
rejected with the fixed message although the remote oracle would succeed;
outside cloud mode a failing test extraction is returned as a message. -/
theorem C3_check_config_total_witness :
    check_config "CLOUD" (fun _ _ => Except.ok (some "parsed"))
      (Processing.apiProcessing "http://api.example.com" "key" none)
      = (false, some "Base URL must start with https://")
    ∧ check_config "" (fun _ _ => Except.error "ConnectionError")
      (Processing.apiProcessing "https://api.example.com" "key" none)
      = (false, some "ConnectionError") := by
  have h1 := C3_check_config_total "CLOUD" "http://api.example.com" "key"
    "ConnectionError" none (fun _ _ => Except.ok (some "parsed"))
    (fun _ _ => Except.ok (some "parsed"))
  have h2 := C3_check_config_total "" "https://api.example.com" "key"
    "ConnectionError" none (fun _ _ => Except.error "ConnectionError")
    (fun _ _ => Except.error "ConnectionError")
  exact ⟨(h1.2.1 (by decide) (by decide)).1, (h2.2.2 (by decide)).1 rfl⟩

/-- C7: for a file detected as Markdown, _read_file returns the raw bytes
decoded as UTF-8, independently of the skip flag, the processing mode and
the local and remote extraction oracles; a decoding failure propagates as
the decode error. -/
theorem C7_markdown_passthrough (decodeUtf8 : List Nat → Option String)
    (contents : List Nat) (skip skip2 : Option Bool)
    (mode mode2 : ProcessingMode)
    (lr rr lr2 rr2 : Except ParseError (Option String)) (uri : String)
    (s : String) :
    (decodeUtf8 contents = some s →
      read_file (some FileType.MD) decodeUtf8 contents skip mode lr rr uri
        = Except.ok ([], some s))
    ∧ (decodeUtf8 contents = none →
      read_file (some FileType.MD) decodeUtf8 contents skip mode lr rr uri
        = Except.error ParseError.decodeError)
    ∧ read_file (some FileType.MD) decodeUtf8 contents skip mode lr rr uri
        = read_file (some FileType.MD) decodeUtf8 contents skip2 mode2 lr2 rr2
          uri := by
  refine ⟨?_, ?_, ?_⟩
  · intro h
    simp [read_file, optional_decode, h]
  · intro h
    simp [read_file, optional_decode, h]
  · cases h : decodeUtf8 contents <;>
      simp [read_file, optional_decode, h]

/-- Witness for C7: a concrete markdown byte payload is decoded and passed
through; an undecodable payload yields the decode error. -/
theorem C7_markdown_passthrough_witness :
    read_file (some FileType.MD)
      (fun bs => if bs = [35, 32, 104, 105] then some "# hi" else none)
      [35, 32, 104, 105] none ProcessingMode.localMode (Except.ok none)
      (Except.ok none) "f.md" = Except.ok ([], some "# hi")
    ∧ read_file (some FileType.MD) (fun _ => none) [255] none
      ProcessingMode.apiMode (Except.ok none) (Except.ok none) "f.md"
      = Except.error ParseError.decodeError := by
  have h1 := C7_markdown_passthrough
    (fun bs => if bs = [35, 32, 104, 105] then some "# hi" else none)
    [35, 32, 104, 105] none none ProcessingMode.localMode
    ProcessingMode.localMode (Except.ok none) (Except.ok none)
    (Except.ok none) (Except.ok none) "f.md" "# hi"
  have h2 := C7_markdown_passthrough (fun _ => none) [255] none none
    ProcessingMode.apiMode ProcessingMode.apiMode (Except.ok none)
    (Except.ok none) (Except.ok none) (Except.ok none) "f.md" "# hi"
  exact ⟨h1.1 (by decide), h2.2.1 rfl⟩

/-- C4: for a file whose detected kind is outside the supported set,
parse_records with a true skip flag yields zero records and the warning
message naming the file URI without an error; with the flag unset or false
it raises the record-parse error naming the URI. -/
theorem C4_unprocessable_policy (ft : Option FileType)
    (decodeUtf8 : List Nat → Option String) (contents : List Nat)
    (mode : ProcessingMode) (lr rr : Except ParseError (Option String))
    (uri : String) :
    in_supported ft = false →
    (parse_records ft decodeUtf8 contents (some true) mode lr rr uri
      = Except.ok ([s!"File {uri} cannot be parsed. Skipping it."], []))
    ∧ (∀ skip, skip = none ∨ skip = some false →
      parse_records ft decodeUtf8 contents skip mode lr rr uri
        = Except.error (ParseError.recordParseError uri)) := by
  intro hft
  have hmd : ¬ (ft = some FileType.MD) := by
    intro h
    subst h
    simp [in_supported, supported_file_types] at hft
  constructor
  · simp [parse_records, read_file, hmd, hft, handle_unprocessable_file]
  · rintro skip (rfl | rfl) <;>
      simp [parse_records, read_file, hmd, hft, handle_unprocessable_file]

/-- Witness for C4 at a CSV file: skipping yields the warning and no
record, not skipping raises the record-parse error naming the URI. -/
theorem C4_unprocessable_policy_witness :
    parse_records (some FileType.CSV) (fun _ => none) [] (some true)
      ProcessingMode.localMode (Except.ok none) (Except.ok none)
      "s3://bucket/data.csv"
      = Except.ok (["File s3://bucket/data.csv cannot be parsed. Skipping it."], [])
    ∧ parse_records (some FileType.CSV) (fun _ => none) [] none
      ProcessingMode.localMode (Except.ok none) (Except.ok none)
      "s3://bucket/data.csv"
      = Except.error (ParseError.recordParseError "s3://bucket/data.csv") := by
  have h := C4_unprocessable_policy (some FileType.CSV) (fun _ => none) []
    ProcessingMode.localMode (Except.ok none) (Except.ok none)
    "s3://bucket/data.csv" rfl
  exact ⟨h.1, h.2 none (Or.inl rfl)⟩

/-- Folding separator-appends over a list distributes over a prefix of the
accumulator. -/
theorem py_join_foldl_append (sep : String) (l : List String) :
    ∀ pre init : String,
      l.foldl (fun acc x => acc ++ sep ++ x) (pre ++ init)
        = pre ++ l.foldl (fun acc x => acc ++ sep ++ x) init := by
  induction l with
  | nil => intro pre init; rfl
  | cons c cs ih =>
    intro pre init
    simp only [List.foldl_cons]
    rw [show pre ++ init ++ sep ++ c = pre ++ (init ++ sep ++ c) by
      simp [String.append_assoc]]
    exact ih pre (init ++ sep ++ c)

/-- Unfolding of py_join on a list of at least two items: the head, the
separator, then the join of the tail. -/
theorem py_join_cons_cons (sep a b : String) (l : List String) :
    py_join sep (a :: b :: l) = a ++ sep ++ py_join sep (b :: l) := by
  show l.foldl (fun acc x => acc ++ sep ++ x) (a ++ sep ++ b) = _
  rw [show a ++ sep ++ b = (a ++ sep) ++ b from rfl,
    py_join_foldl_append sep l (a ++ sep) b]
  rfl

/-- C5: _render_markdown joins the per-element renderings in input order
with exactly one blank-line separator between consecutive elements and no
leading or trailing separator: it renders the empty sequence to the empty
string, a single element to its own rendering, and a head followed by a
nonempty rest to the head rendering, one separator, then the rendering of
the rest. -/
theorem C5_render_join (e : JVal) (els : List JVal) (s r : String) :
    (render_markdown [] = Except.ok "")
    ∧ (convert_to_markdown e = Except.ok s →
        render_markdown [e] = Except.ok s)
    ∧ (convert_to_markdown e = Except.ok s → render_markdown els = Except.ok r →
        els ≠ [] →
        render_markdown (e :: els) = Except.ok (s ++ "\n\n" ++ r)) := by
  refine ⟨rfl, ?_, ?_⟩
  · intro h
    simp [render_markdown, convert_all, h, py_join, Except.map]
  · intro hconv hr hne
    match els with
    | [] => exact absurd rfl hne
    | x :: xs =>
      simp only [render_markdown] at hr ⊢
      cases hm : convert_all (x :: xs) with
      | error e2 => rw [hm] at hr; simp [Except.map] at hr
      | ok parts =>
        rw [hm] at hr
        simp only [Except.map] at hr
        injection hr with hr2
        have hcons : ∃ p0 prest, parts = p0 :: prest := by
          rw [show convert_all (x :: xs)
              = (match convert_to_markdown x with
                | Except.error e => Except.error e
                | Except.ok s =>
                  match convert_all xs with
                  | Except.error e => Except.error e
                  | Except.ok ss => Except.ok (s :: ss)) from rfl] at hm
          cases hx : convert_to_markdown x with
          | error e3 => rw [hx] at hm; simp at hm
          | ok sx =>
            rw [hx] at hm
            cases hxs : convert_all xs with
            | error e3 => rw [hxs] at hm; simp at hm
            | ok ss =>
              rw [hxs] at hm
              injection hm with hm2
              exact ⟨sx, ss, hm2.symm⟩
        obtain ⟨p0, prest, rfl⟩ := hcons
        rw [show convert_all (e :: x :: xs)
            = (match convert_to_markdown e with
              | Except.error e2 => Except.error e2
              | Except.ok s2 =>
                match convert_all (x :: xs) with
                | Except.error e2 => Except.error e2
                | Except.ok ss => Except.ok (s2 :: ss)) from rfl,
          hconv, hm]
        simp only [Except.map]
        rw [py_join_cons_cons, hr2]

/-- Witness for C5: two concrete elements render to their parts joined by
one blank line. -/
theorem C5_render_join_witness :
    render_markdown
      [JVal.dict [("type", JVal.str "ListItem"), ("text", JVal.str "Buy milk")],
       JVal.dict [("type", JVal.str "NarrativeText"), ("text", JVal.str "Done")]]
      = Except.ok ("- Buy milk\n\nDone") := by
  have h := C5_render_join
    (JVal.dict [("type", JVal.str "ListItem"), ("text", JVal.str "Buy milk")])
    [JVal.dict [("type", JVal.str "NarrativeText"), ("text", JVal.str "Done")]]
    "- Buy milk" "Done"
  exact h.2.2 rfl rfl (by simp)

/-- C6: a Title element with a positive integer category_depth d renders as
d hash characters, a space and the text; with the depth absent or having a
falsy stored value (zero included) it renders as a depth-1 heading. -/
theorem C6_title_depth (el : JVal) (t : String) (d : Int) :
    jget el ["type"] = some (JVal.str "Title") →
    jget el ["text"] = some (JVal.str t) →
    ((jget el ["metadata", "category_depth"] = some (JVal.int d) → 0 < d →
        convert_to_markdown el
          = Except.ok
            (String.mk (List.replicate d.toNat (Char.ofNat 35)) ++ " " ++ t))
     ∧ (jget el ["metadata", "category_depth"] = none
          ∨ (∃ v, jget el ["metadata", "category_depth"] = some v
              ∧ py_falsy v = true) →
        convert_to_markdown el = Except.ok ("# " ++ t))) := by
  intro hty htext
  constructor
  · intro hd hpos
    have hnz : ¬ py_falsy (JVal.int d) = true := by
      simp [py_falsy]
      omega
    simp [convert_to_markdown, jget_req, jget_default, hty, htext, hd, is_str,
      hnz, repeat_hash, py_str]
  · intro hcase
    rcases hcase with hd | ⟨v, hd, hfal⟩
    · simp [convert_to_markdown, jget_req, jget_default, hty, htext, hd,
        is_str, repeat_hash, py_str]
    · simp [convert_to_markdown, jget_req, jget_default, hty, htext, hd, hfal,
        is_str, repeat_hash, py_str]

/-- Witness for C6: depth 3 renders three hashes, a missing depth renders
one. -/
theorem C6_title_depth_witness :
    convert_to_markdown
      (JVal.dict [("type", JVal.str "Title"), ("text", JVal.str "Intro"),
        ("metadata", JVal.dict [("category_depth", JVal.int 3)])])
      = Except.ok "### Intro"
    ∧ convert_to_markdown
      (JVal.dict [("type", JVal.str "Title"), ("text", JVal.str "Intro")])
      = Except.ok "# Intro" := by
  have h1 := C6_title_depth
    (JVal.dict [("type", JVal.str "Title"), ("text", JVal.str "Intro"),
      ("metadata", JVal.dict [("category_depth", JVal.int 3)])])
    "Intro" 3 rfl rfl
  have h2 := C6_title_depth
    (JVal.dict [("type", JVal.str "Title"), ("text", JVal.str "Intro")])
    "Intro" 1 rfl rfl
  exact ⟨(h1.1 rfl (by norm_num)).trans rfl, (h2.2 (Or.inl rfl)).trans rfl⟩

/-- C10: with no text key, elements typed Title, ListItem or Formula make
the renderer raise (the text lookup of those branches has no default, and
the Title branch may raise earlier from the depth repetition), while an
element of any other type renders as the empty string through the
defaulted lookup. -/
theorem C10_text_missing_key (el : JVal) :
    jget el ["text"] = none →
    ((jget el ["type"] = some (JVal.str "Title") →
        ∃ e, convert_to_markdown el = Except.error e)
     ∧ (jget el ["type"] = some (JVal.str "ListItem") →
        convert_to_markdown el = Except.error (PyErr.keyError ["text"]))
     ∧ (jget el ["type"] = some (JVal.str "Formula") →
        convert_to_markdown el = Except.error (PyErr.keyError ["text"]))
     ∧ (∀ v, jget el ["type"] = some v →
        is_str v "Title" = false → is_str v "ListItem" = false →
        is_str v "Formula" = false →
        convert_to_markdown el = Except.ok "")) := by
  intro htext
  refine ⟨?_, ?_, ?_, ?_⟩
  · intro hty
    cases hr : repeat_hash
        (if py_falsy (jget_default el ["metadata", "category_depth"] (JVal.int 1))
          then JVal.int 1
          else jget_default el ["metadata", "category_depth"] (JVal.int 1)) with
    | error e =>
      exact ⟨e, by
        simp [convert_to_markdown, jget_req, hty, htext, is_str, hr]⟩
    | ok heading =>
      exact ⟨PyErr.keyError ["text"], by
        simp [convert_to_markdown, jget_req, hty, htext, is_str, hr]⟩
  · intro hty
    simp [convert_to_markdown, jget_req, hty, htext, is_str]
  · intro hty
    simp [convert_to_markdown, jget_req, hty, htext, is_str]
  · intro v hty h1 h2 h3
    simp [convert_to_markdown, jget_req, jget_default, hty, htext, h1, h2, h3,
      py_str]

/-- Witness for C10: concrete textless elements of the three typed branches
raise, a textless element of another type renders as the empty string. -/
theorem C10_text_missing_key_witness :
    (∃ e, convert_to_markdown (JVal.dict [("type", JVal.str "Title")])
      = Except.error e)
    ∧ convert_to_markdown (JVal.dict [("type", JVal.str "ListItem")])
      = Except.error (PyErr.keyError ["text"])
    ∧ convert_to_markdown (JVal.dict [("type", JVal.str "Formula")])
      = Except.error (PyErr.keyError ["text"])
    ∧ convert_to_markdown (JVal.dict [("type", JVal.str "NarrativeText")])
      = Except.ok "" := by
  have h1 := C10_text_missing_key (JVal.dict [("type", JVal.str "Title")]) rfl
  have h2 := C10_text_missing_key (JVal.dict [("type", JVal.str "ListItem")]) rfl
  have h3 := C10_text_missing_key (JVal.dict [("type", JVal.str "Formula")]) rfl
  have h4 := C10_text_missing_key
    (JVal.dict [("type", JVal.str "NarrativeText")]) rfl
  exact ⟨h1.1 rfl, h2.2.1 rfl, h3.2.2.1 rfl,
    h4.2.2.2 (JVal.str "NarrativeText") rfl rfl rfl rfl⟩

/-- With fuel t + 1, the retry loop consults only attempt indices i to
i + t: two attempt sequences agreeing there produce the same result. -/
theorem backoff_retry_congr {ε α : Type} (gv : ε → Bool)
    (f g : Nat → Except ε α) :
    ∀ t i : Nat, (∀ j, i ≤ j → j < i + (t + 1) → f j = g j) →
      backoff_retry gv f i (t + 1) = backoff_retry gv g i (t + 1) := by
  intro t
  induction t with
  | zero =>
    intro i h
    simp only [backoff_retry]
    rw [h i (le_refl i) (by omega)]
    cases g i with
    | ok a => rfl
    | error e => simp
  | succ t ih =>
    intro i h
    simp only [backoff_retry]
    rw [h i (le_refl i) (by omega)]
    cases g i with
    | ok a => rfl
    | error e =>
      by_cases hg : gv e
      · simp [hg]
      · simp only [hg, Bool.false_eq_true, if_false, Nat.succ_ne_zero,
          ite_false]
        exact ih (i + 1) (fun j hj1 hj2 => h j (by omega) (by omega))

/-- Skipping a run of non-giveup failures: if the first n attempts from i
fail with errors the giveup predicate rejects, and fuel remains, the loop
continues at attempt i + n with n fewer tries. -/
theorem backoff_retry_skip {ε α : Type} (gv : ε → Bool)
    (f : Nat → Except ε α) :
    ∀ n i t : Nat,
      (∀ j, j < n → ∃ e, f (i + j) = Except.error e ∧ gv e = false) →
      n < t →
      backoff_retry gv f i t = backoff_retry gv f (i + n) (t - n) := by
  intro n
  induction n with
  | zero =>
    intro i t _ _
    simp
  | succ n ih =>
    intro i t h hn
    obtain ⟨e, he, hge⟩ := h 0 (by omega)
    rw [Nat.add_zero] at he
    obtain ⟨t2, rfl⟩ : ∃ t2, t = t2 + 1 := ⟨t - 1, by omega⟩
    simp only [backoff_retry, he]
    have ht2 : ¬ t2 = 0 := by omega
    simp only [hge, Bool.false_eq_true, if_false, ht2, ite_false]
    have step := ih (i + 1) t2
      (fun j hj => by
        obtain ⟨e2, he2, hg2⟩ := h (j + 1) (by omega)
        exact ⟨e2, by rw [show i + 1 + j = i + (j + 1) by omega]; exact he2,
          hg2⟩)
      (by omega)
    rw [step, show i + 1 + n = i + (n + 1) by omega,
      show t2 - n = t2 + 1 - (n + 1) by omega]

/-- C2: the code does not stop retrying on 4xx. The classifier user_error
returns False on every request error: a missing response short-circuits,
and so does a present 4xx response, because such a Response is itself
falsy (its truthiness is its ok flag), so the range check is never
reached on the statuses it targets. With giveup constantly False, the
retry wrapper retries a first-attempt 404 and returns the second
attempt's success, retries 404s to the fifth attempt, and only after 5
failed attempts surfaces the 404 error. -/
theorem C2_fourxx_retried :
    (∀ e, user_error e = false)
    ∧ read_file_remotely_with_retries
      (fun i => if i = 0 then Except.error (ReqError.withStatus 404)
        else Except.ok (some "second-attempt"))
      = Except.ok (some "second-attempt")
    ∧ read_file_remotely_with_retries
      (fun i => if i < 4 then Except.error (ReqError.withStatus 404)
        else Except.ok (some "fifth-attempt"))
      = Except.ok (some "fifth-attempt")
    ∧ read_file_remotely_with_retries
      (fun _ => Except.error (ReqError.withStatus 404))
      = Except.error (ReqError.withStatus 404) := by
  refine ⟨?_, rfl, rfl, rfl⟩
  intro e
  cases e with
  | withStatus code =>
    show (response_ok code && decide (400 ≤ code ∧ code < 500)) = false
    rcases Nat.lt_or_ge code 400 with h | h
    · have hr : decide (400 ≤ code ∧ code < 500) = false := by
        simp only [decide_eq_false_iff_not]
        omega
      rw [hr, Bool.and_false]
    · have hr : response_ok code = false := by
        simp only [response_ok, decide_eq_false_iff_not]
        omega
      rw [hr, Bool.false_and]
  | noResponse => rfl

/-- The values carried by a given name, in input order. -/
def values_of (k : String) (ps : List (String × String)) : List String :=
  (ps.filter (fun p => p.1 == k)).map (fun p => p.2)

/-- The form-field value the claim assigns to a multiset of values: nothing
for no occurrence, the scalar for exactly one, the ordered list for more. -/
def coalesce : List String → Option ParamValue
  | [] => none
  | [v] => some (ParamValue.scalar v)
  | vs => some (ParamValue.listVal vs)

/-- Lookup after assignment: the assigned key reads the new value, any
other key is unchanged. -/
theorem dict_get_set (d : List (String × ParamValue)) (k k2 : String)
    (v : ParamValue) :
    dict_get (dict_set d k v) k2 = if k = k2 then some v else dict_get d k2 := by
  induction d with
  | nil => simp [dict_set, dict_get]
  | cons hd tl ih =>
    obtain ⟨hk, hv⟩ := hd
    by_cases h1 : hk = k
    · subst h1
      by_cases h2 : hk = k2 <;> simp [dict_set, dict_get, h2]
    · by_cases h2 : hk = k2
      · subst h2
        have : ¬ k = hk := fun h => h1 h.symm
        simp [dict_set, dict_get, h1, this]
      · simp [dict_set, dict_get, h1, h2, ih]

/-- One loop iteration of _params_to_dict extends, per key, the encoded
value list by the new value when the names match. -/
theorem params_step_spec (acc : List (String × ParamValue))
    (f : String → List String)
    (hacc : ∀ k, dict_get acc k = coalesce (f k)) (a b : String) :
    ∀ k, dict_get (params_step acc (a, b)) k
      = coalesce (f k ++ if a = k then [b] else []) := by
  intro k
  by_cases hak : a = k
  · subst hak
    have h := hacc a
    simp only [params_step]
    cases hfa : f a with
    | nil =>
      rw [hfa] at h
      simp only [coalesce] at h
      rw [h]
      simp [dict_get_set, hfa, coalesce]
    | cons v1 rest =>
      cases rest with
      | nil =>
        rw [hfa] at h
        simp only [coalesce] at h
        rw [h]
        simp [dict_get_set, hfa, coalesce]
      | cons v2 rest2 =>
        rw [hfa] at h
        simp only [coalesce] at h
        rw [h]
        simp [dict_get_set, hfa, coalesce]
  · have hbase := hacc k
    simp only [params_step]
    cases hda : dict_get acc a with
    | none =>
      simp [dict_get_set, hak, hbase]
    | some pv =>
      cases pv <;> simp [dict_get_set, hak, hbase]

/-- Folding the parameter list is, per key, the coalescing of the values
seen so far followed by the values still to come. -/
theorem params_fold_spec (ps : List (String × String)) :
    ∀ (acc : List (String × ParamValue)) (f : String → List String),
      (∀ k, dict_get acc k = coalesce (f k)) →
      ∀ k, dict_get (ps.foldl params_step acc) k
        = coalesce (f k ++ values_of k ps) := by
  induction ps with
  | nil =>
    intro acc f hacc k
    simpa [values_of] using hacc k
  | cons p rest ih =>
    intro acc f hacc k
    obtain ⟨a, b⟩ := p
    have hstep := params_step_spec acc f hacc a b
    have hrec := ih (params_step acc (a, b))
      (fun k => f k ++ if a = k then [b] else []) hstep k
    rw [List.foldl_cons, hrec]
    congr 1
    by_cases hak : a = k
    · subst hak
      simp [values_of, List.append_assoc]
    · simp [values_of, hak]

/-- C8: _params_to_dict maps a name occurring exactly once to its scalar
value, a name occurring several times to the ordered list of its values,
leaves unseen names unmapped, and maps a None parameter list to the empty
dictionary. -/
theorem C8_params_coalescing (ps : List (String × String)) (k : String) :
    params_to_dict none = []
    ∧ dict_get (params_to_dict (some ps)) k = coalesce (values_of k ps) := by
  refine ⟨rfl, ?_⟩
  have h := params_fold_spec ps [] (fun _ => []) (fun _ => rfl) k
  simpa [params_to_dict] using h

/-- C9: a_build is the conjunction of the sanity-check results over all
(platform, base-image) pairs, and main regenerates the changelog exactly
when that conjunction holds, exiting with status 1 otherwise and 0 on
success. -/
theorem C9_changelog_iff_checks {P I : Type} (platforms : List P)
    (images : List I) (sanity : P → I → Bool) :
    ((build_main platforms images sanity).changelog_written = true
      ↔ a_build platforms images sanity = true)
    ∧ (a_build platforms images sanity = true
      ↔ ∀ p ∈ platforms, ∀ im ∈ images, sanity p im = true)
    ∧ ((build_main platforms images sanity).exit_code
      = if a_build platforms images sanity = true then 0 else 1) := by
  refine ⟨?_, ?_, ?_⟩
  · unfold build_main
    by_cases h : a_build platforms images sanity = true <;> simp [h]
  · unfold a_build python_product
    simp only [List.all_eq_true, List.mem_map, List.mem_flatMap, id]
    constructor
    · intro h p hp im him
      exact h (sanity p im) ⟨(p, im), ⟨p, hp, im, him, rfl⟩, rfl⟩
    · rintro h b ⟨⟨p, im⟩, ⟨p2, hp2, im2, him2, heq⟩, rfl⟩
      injection heq with h1 h2
      subst h1
      subst h2
      exact h p2 hp2 im2 him2
  · unfold build_main
    by_cases h : a_build platforms images sanity = true <;> simp [h]

/-- Witness for C9: with one platform and two images, all checks passing
writes the changelog; one failing check gives exit status 1. -/
theorem C9_changelog_iff_checks_witness :
    (build_main [0] [0, 1] (fun _ _ => true)).changelog_written = true
    ∧ (build_main [0] [0, 1] (fun p im => p + im == 0)).exit_code = 1 := by
  have h1 := C9_changelog_iff_checks [0] [0, 1] (fun _ _ => true)
  have h2 := C9_changelog_iff_checks [0] [0, 1] (fun p im => p + im == 0)
  constructor
  · exact h1.1.mpr (h1.2.1.mpr (by intro p _ im _; rfl))
  · rw [h2.2.2]
    have : a_build [0] [0, 1] (fun p im => p + im == 0) = false := rfl
    rw [this]
    simp

end Airbyte
